import Mathlib

/-!
Verification of the QuakeGuard edge firmware core (ESP32 seismic node).

The embedding follows the master firmware translation unit
(`sensorTask`, `networkTask`, `initCrypto`, `signMessage`, `setup`):
IEEE-754 float arithmetic is modelled as exact rational arithmetic over `ℚ`,
the `millis()` monotonic clock as a natural-number count of milliseconds
(with unsigned 32-bit wrap modelled explicitly where the source relies on it),
`time_t` wall-clock seconds as `ℤ`, and the FreeRTOS queue/connectivity loop
as explicit state passing over lists.
-/

namespace QuakeGuard

/-- DSP constant `ALPHA_LTA = 0.05f` (long-term average smoothing factor). -/
def alphaLta : ℚ := 1/20

/-- DSP constant `ALPHA_STA = 0.40f` (short-term average smoothing factor). -/
def alphaSta : ℚ := 2/5

/-- DSP constant `TRIGGER_RATIO = 1.8f` (threshold for alarm triggering).
Renamed from the source spelling for lexical reasons only. -/
def triggerThreshold : ℚ := 9/5

/-- DSP constant `NOISE_FLOOR = 0.04f` (minimum signal considered valid). -/
def noiseFloor : ℚ := 1/25

/-- Dropout guard threshold: `if (raw_mag < 2.0f) continue;`. -/
def dropoutFloor : ℚ := 2

/-- Safety floor applied to the long-term average: `if (lta < 0.05f) lta = 0.05f;`. -/
def ltaFloor : ℚ := 1/20

/-- Alarm cooldown dwell: `if (inAlarm && (millis() - alarmStart > 5000))`. -/
def cooldownMs : ℕ := 5000

/-- `struct SeismicEvent { float magnitude; unsigned long event_millis; }`. -/
structure SeismicEvent where
  magnitude : ℚ
  eventMillis : ℕ
  deriving DecidableEq

/-- The mutable locals of `sensorTask` carried from one loop iteration to the
next: `lta`, `sta`, `prev_raw_mag`, `filtered_mag`, `inAlarm`, `alarmStart`. -/
structure DetectorState where
  sta : ℚ
  lta : ℚ
  prevRawMag : ℚ
  filteredMag : ℚ
  inAlarm : Bool
  alarmStart : ℕ
  deriving DecidableEq

/-- High-pass filter: `filtered_mag = 0.9f * (filtered_mag + raw_mag - prev_raw_mag)`. -/
def hpf (filteredMag prevRawMag rawMag : ℚ) : ℚ :=
  (9/10) * (filteredMag + rawMag - prevRawMag)

/-- Noise gate applied to `abs(filtered_mag)`:
`if (abs_signal < NOISE_FLOOR) abs_signal = 0.0f;`. -/
def gate (x : ℚ) : ℚ :=
  if |x| < noiseFloor then 0 else |x|

/-- `sta = (ALPHA_STA * abs_signal) + ((1.0f - ALPHA_STA) * sta);`. -/
def staNext (sta signal : ℚ) : ℚ :=
  alphaSta * signal + (1 - alphaSta) * sta

/-- `lta = (ALPHA_LTA * abs_signal) + ((1.0f - ALPHA_LTA) * lta);`
followed immediately by the safety floor `if (lta < 0.05f) lta = 0.05f;`. -/
def ltaNext (lta signal : ℚ) : ℚ :=
  if alphaLta * signal + (1 - alphaLta) * lta < ltaFloor then ltaFloor
  else alphaLta * signal + (1 - alphaLta) * lta

/-- The gated signal computed by one `sensorTask` iteration on `rawMag`. -/
def stepSignal (s : DetectorState) (rawMag : ℚ) : ℚ :=
  gate (hpf s.filteredMag s.prevRawMag rawMag)

/-- The updated short-term average of one `sensorTask` iteration. -/
def stepSta (s : DetectorState) (rawMag : ℚ) : ℚ :=
  staNext s.sta (stepSignal s rawMag)

/-- The updated (and floored) long-term average of one `sensorTask` iteration. -/
def stepLta (s : DetectorState) (rawMag : ℚ) : ℚ :=
  ltaNext s.lta (stepSignal s rawMag)

/-- `float ratio = sta / lta;` for one `sensorTask` iteration. -/
def stepQuot (s : DetectorState) (rawMag : ℚ) : ℚ :=
  stepSta s rawMag / stepLta s rawMag

/-- One iteration of the `sensorTask` detection loop, given the Euclidean
magnitude `rawMag` of the current accelerometer sample and the current
`millis()` reading `now`.  Mirrors the source order: dropout guard, high-pass
filter, noise gate, STA/LTA update with safety floor, trigger test
`ratio >= TRIGGER_RATIO && sta > NOISE_FLOOR && !inAlarm` (which enqueues
`{ratio, millis()}` and enters the alarm), then the cooldown test
`inAlarm && millis() - alarmStart > 5000`.  Immediately after a trigger the
cooldown test compares `millis() - alarmStart = 0`, which is not `> 5000`,
so the alarm flag set by the trigger survives the same iteration. -/
def sensorTaskStep (s : DetectorState) (rawMag : ℚ) (now : ℕ) :
    DetectorState × Option SeismicEvent :=
  if rawMag < dropoutFloor then (s, none)
  else if triggerThreshold ≤ stepQuot s rawMag ∧ noiseFloor < stepSta s rawMag ∧
      s.inAlarm = false then
    ({ sta := stepSta s rawMag, lta := stepLta s rawMag, prevRawMag := rawMag,
       filteredMag := hpf s.filteredMag s.prevRawMag rawMag,
       inAlarm := true, alarmStart := now },
     some { magnitude := stepQuot s rawMag, eventMillis := now })
  else
    ({ sta := stepSta s rawMag, lta := stepLta s rawMag, prevRawMag := rawMag,
       filteredMag := hpf s.filteredMag s.prevRawMag rawMag,
       inAlarm := if s.inAlarm = true ∧ cooldownMs < now - s.alarmStart then false
                  else s.inAlarm,
       alarmStart := s.alarmStart }, none)

/-- Repeated iterations of the `sensorTask` loop over a list of
(magnitude, `millis()` reading) samples, returning the final state and the
events sent to the queue, in emission order. -/
def sensorTaskRun : DetectorState → List (ℚ × ℕ) → DetectorState × List SeismicEvent
  | s, [] => (s, [])
  | s, (m, t) :: rest =>
    ((sensorTaskRun (sensorTaskStep s m t).1 rest).1,
     (sensorTaskStep s m t).2.toList ++ (sensorTaskRun (sensorTaskStep s m t).1 rest).2)

/-! ### Dispatcher (`networkTask`), timestamp reconstruction and payload -/

/-- `millis()` returns `unsigned long` (32 bits on the target): modulus for
the wraparound of the monotonic millisecond clock. -/
def u32Mod : ℕ := 4294967296

/-- Unsigned 32-bit subtraction
`unsigned long age_ms = millis() - receivedEvt.event_millis;`
of two monotonic millisecond counts (each read modulo `2^32`). -/
def millisSub (t1 t0 : ℕ) : ℕ :=
  (t1 % u32Mod + (u32Mod - t0 % u32Mod)) % u32Mod

/-- Timestamp reconstruction in `networkTask`:
`time(&now_unix); unsigned long age_ms = millis() - receivedEvt.event_millis;
time_t evt_time = now_unix - (age_ms / 1000);`
`nowUnix` is the wall clock in unix seconds at dispatch, `nowMs` the current
`millis()` count, `evtMs` the `millis()` count stored at detection. -/
def reconstructTime (nowUnix : ℤ) (nowMs evtMs : ℕ) : ℤ :=
  nowUnix - (millisSub nowMs evtMs / 1000 : ℕ)

/-- The C cast `(int)` applied to a real value truncates toward zero;
`Int.tdiv` is truncating division, so this is exact on the rational model. -/
def cIntOfRat (q : ℚ) : ℤ :=
  Int.tdiv q.num q.den

/-- `SENSOR_ID` build constant (default 101), mapped to `SENSOR_ID_CONF`. -/
def sensorIdConf : ℤ := 101

/-- The JSON document built per dispatch:
`doc["value"], doc["misurator_id"], doc["device_timestamp"], doc["signature_hex"]`. -/
structure SignedPayload where
  value : ℤ
  misuratorId : ℤ
  deviceTimestamp : ℤ
  signatureHex : String
  deriving DecidableEq

/-- `String payload = String(val) + ":" + String(evt_time);`. -/
def buildPayloadStr (v t : ℤ) : String :=
  toString v ++ ":" ++ toString t

/-- The per-event body of `networkTask` once connectivity is confirmed:
timestamp reconstruction, fixed-point `value`, payload string, signing, and
JSON field construction.  Returns the string passed to the signer and the
payload record.  The signer is abstracted as a `String → String` function. -/
def networkHandleEvent (evt : SeismicEvent) (nowUnix : ℤ) (nowMs : ℕ)
    (signer : String → String) : String × SignedPayload :=
  (buildPayloadStr (cIntOfRat (evt.magnitude * 100)) (reconstructTime nowUnix nowMs evt.eventMillis),
   { value := cIntOfRat (evt.magnitude * 100),
     misuratorId := sensorIdConf,
     deviceTimestamp := reconstructTime nowUnix nowMs evt.eventMillis,
     signatureHex := signer (buildPayloadStr (cIntOfRat (evt.magnitude * 100))
       (reconstructTime nowUnix nowMs evt.eventMillis)) })

/-- `serializeJson(doc, json)`: the document fields in insertion order, each
rendered as a key/value pair.  The wire payload carries exactly these four
members. -/
def serializeFields (p : SignedPayload) : List (String × String) :=
  [("value", toString p.value), ("misurator_id", toString p.misuratorId),
   ("device_timestamp", toString p.deviceTimestamp), ("signature_hex", p.signatureHex)]

/-! ### Connectivity watchdog of the dispatcher loop -/

/-- One iteration of the `networkTask` dequeue loop, given the connectivity
status observed right after `xQueueReceive` succeeds.  Translated from the
source: the event has already been removed from the queue; when
`WiFi.status() != WL_CONNECTED` the task reconnects, waits a fixed 1 s
backoff and executes `continue`, so the received event is neither dispatched
nor re-queued.  Returns the remaining queue and the dispatched event, if any. -/
def netStep (connected : Bool) (queue : List SeismicEvent) :
    List SeismicEvent × Option SeismicEvent :=
  match queue with
  | [] => ([], none)
  | e :: rest => if connected then (rest, some e) else (rest, none)

/-- The dequeue loop iterated along a trace of per-iteration connectivity
observations, collecting the events that actually get dispatched. -/
def netRun : List Bool → List SeismicEvent → List SeismicEvent
  | [], _ => []
  | c :: cs, queue =>
    (netStep c queue).2.toList ++ netRun cs (netStep c queue).1

/-! ### Identity / signer subsystem (`initCrypto`, `signMessage`) -/

/-- Result of `setup()`: either the device halts before task creation, or both
tasks are started with the crypto context in the given condition.
`keyParsedOk = false` records that `mbedtls_pk_parse_key` reported an error
and `pk_context` holds no usable key. -/
inductive BootOutcome where
  | halted : BootOutcome
  | tasksStarted (keyParsedOk : Bool) : BootOutcome
  deriving DecidableEq

/-- Translation of `initCrypto` as called from `setup()`.  `storedKey` is the
NVS blob under `"priv_key"` when present; `parseOk` is whether
`mbedtls_pk_parse_key` succeeds on it.  In the source the return code of
`mbedtls_pk_parse_key` is discarded: there is no halt, retry loop or error
branch, and `setup()` continues to `xTaskCreate` on every path, so the only
outcome is `tasksStarted`.  (`BootOutcome.halted` exists to express the
fatal-halt behaviour the specification asks for; no source path produces it.) -/
def initCryptoBoot (storedKey : Option (List ℕ)) (parseOk : Bool) : BootOutcome :=
  match storedKey with
  | none => .tasksStarted true
  | some _ => .tasksStarted parseOk

/-- Lower-nibble/upper-nibble hex characters of `sprintf(buf, "%02x", b)`. -/
def hexDigitChar (n : ℕ) : Char :=
  if n < 10 then Char.ofNat (48 + n) else Char.ofNat (87 + n)

/-- `sprintf(buf, "%02x", sig[i])` for one byte. -/
def hexByte (b : ℕ) : String :=
  String.mk [hexDigitChar (b / 16 % 16), hexDigitChar (b % 16)]

/-- The hex-encoding loop of `signMessage`. -/
def hexEncode (bytes : List ℕ) : String :=
  String.join (bytes.map hexByte)

/-- Translation of `signMessage`: the return code of `mbedtls_pk_sign` is
discarded; on failure `sig_len` keeps its initial value 0 and the function
still returns the hex encoding of the (then empty) signature buffer.  A
string is returned on every path — there is no error value and no retry. -/
def signMessage (signOk : Bool) (sigBytes : List ℕ) : String :=
  hexEncode (if signOk then sigBytes else [])

/-- Whether a boot, as produced by `setup()`, goes on to dispatch (and sign)
a dequeued event: `networkTask` runs whenever the tasks were started; nothing
in it consults the crypto context's validity. -/
def bootDispatch (b : BootOutcome) (evt : SeismicEvent) (nowUnix : ℤ) (nowMs : ℕ)
    (signer : String → String) : Option SignedPayload :=
  match b with
  | .halted => none
  | .tasksStarted _ => some (networkHandleEvent evt nowUnix nowMs signer).2

/-! ### Concrete states and sample sequences used in witnesses -/

/-- Detector state after the stabilization loop with the device at rest:
both averages seeded with the gravity magnitude 9.81. -/
def restState : DetectorState :=
  { sta := 981/100, lta := 981/100, prevRawMag := 981/100, filteredMag := 0,
    inAlarm := false, alarmStart := 0 }

/-- A quiet baseline followed by a single sustained rising edge: five samples
at rest magnitude 9.81, then ten samples at magnitude 100, at the 10 ms
sample period. -/
def edgeSamples : List (ℚ × ℕ) :=
  [(981/100, 0), (981/100, 10), (981/100, 20), (981/100, 30), (981/100, 40),
   (100, 50), (100, 60), (100, 70), (100, 80), (100, 90),
   (100, 100), (100, 110), (100, 120), (100, 130), (100, 140)]

/-- A quiescent armed state about to be hit by a sharp sample. -/
def emitState : DetectorState :=
  { sta := 5, lta := 1/20, prevRawMag := 10, filteredMag := 0,
    inAlarm := false, alarmStart := 0 }

/-- A state inside an active alarm that started at `millis() = 100`. -/
def alarmState : DetectorState :=
  { sta := 1, lta := 1, prevRawMag := 10, filteredMag := 0,
    inAlarm := true, alarmStart := 100 }

/-- A state whose short-term average is still elevated while the current
filtered signal is exactly zero (gated below the noise floor). -/
def gatedSpikeState : DetectorState :=
  { sta := 3, lta := 1, prevRawMag := 10, filteredMag := 0,
    inAlarm := false, alarmStart := 0 }

/-! ## Theorems -/

/-- Claim C6: a sample whose raw magnitude is below the dropout floor is
discarded with the whole detector state unchanged, and any sequence of such
samples leaves the state (and the emitted-event list) identical. -/
theorem c6_dropout_preserves_state :
    (∀ (s : DetectorState) (m : ℚ) (t : ℕ), m < dropoutFloor →
       sensorTaskStep s m t = (s, none)) ∧
    (∀ (s : DetectorState) (samples : List (ℚ × ℕ)),
       (∀ p ∈ samples, p.1 < dropoutFloor) → sensorTaskRun s samples = (s, [])) := by
  have hstep : ∀ (s : DetectorState) (m : ℚ) (t : ℕ), m < dropoutFloor →
      sensorTaskStep s m t = (s, none) := by
    intro s m t h
    simp [sensorTaskStep, h]
  refine ⟨hstep, ?_⟩
  intro s samples
  induction samples generalizing s with
  | nil => intro _; rfl
  | cons p rest ih =>
    intro h
    obtain ⟨m, t⟩ := p
    have h1 : m < dropoutFloor := h (m, t) (by simp)
    have h2 : ∀ q ∈ rest, q.1 < dropoutFloor := fun q hq => h q (by simp [hq])
    simp [sensorTaskRun, hstep s m t h1, ih s h2]

/-- Witness for C6 at concrete inputs. -/
theorem c6_witness :
    sensorTaskStep restState (3/2) 5 = (restState, none) ∧
    sensorTaskRun restState [(1, 0), (3/2, 10)] = (restState, []) := by
  refine ⟨c6_dropout_preserves_state.1 restState (3/2) 5 (by norm_num [dropoutFloor]),
    c6_dropout_preserves_state.2 restState [(1, 0), (3/2, 10)] ?_⟩
  intro p hp
  fin_cases hp <;> norm_num [dropoutFloor]

/-- Claim C7: the long-term average is clamped to the positive floor 0.05 on
every update, so at the point where `ratio = sta / lta` is computed the
denominator is at least the floor, in particular strictly positive and
nonzero. -/
theorem c7_lta_floor_positive :
    (∀ lta signal : ℚ, ltaFloor ≤ ltaNext lta signal) ∧
    (∀ (s : DetectorState) (m : ℚ) (t : ℕ), dropoutFloor ≤ m →
       (sensorTaskStep s m t).1.lta = stepLta s m ∧
       stepQuot s m = stepSta s m / stepLta s m ∧
       0 < stepLta s m ∧ stepLta s m ≠ 0) := by
  have base : ∀ lta signal : ℚ, ltaFloor ≤ ltaNext lta signal := by
    intro lta signal
    unfold ltaNext
    split_ifs with h
    · exact le_refl _
    · exact le_of_not_lt h
  refine ⟨base, ?_⟩
  intro s m t h
  have hlta : 0 < stepLta s m :=
    lt_of_lt_of_le (by norm_num [ltaFloor]) (base s.lta (stepSignal s m))
  refine ⟨?_, rfl, hlta, ne_of_gt hlta⟩
  unfold sensorTaskStep
  rw [if_neg (not_lt.2 h)]
  split_ifs <;> rfl

/-- Witness for C7 at a concrete state and sample. -/
theorem c7_witness :
    (sensorTaskStep restState 10 0).1.lta = stepLta restState 10 ∧
    stepQuot restState 10 = stepSta restState 10 / stepLta restState 10 ∧
    0 < stepLta restState 10 ∧ stepLta restState 10 ≠ 0 :=
  c7_lta_floor_positive.2 restState 10 0 (by norm_num [dropoutFloor])

/-- Claim C3, amended: for a sample that passes the dropout guard, an event
is emitted exactly when the STA/LTA ratio reaches the trigger threshold, the
updated short-term average `sta` (not the instantaneous gated signal) exceeds
the noise floor, and the detector is not already in alarm; the emitted event
carries the ratio and the current `millis()` reading. -/
theorem c3_trigger_uses_short_term_average :
    ∀ (s : DetectorState) (m : ℚ) (t : ℕ) (e : SeismicEvent), dropoutFloor ≤ m →
      ((sensorTaskStep s m t).2 = some e ↔
        (triggerThreshold ≤ stepQuot s m ∧ noiseFloor < stepSta s m ∧
         s.inAlarm = false ∧ e = { magnitude := stepQuot s m, eventMillis := t })) := by
  intro s m t e h
  unfold sensorTaskStep
  rw [if_neg (not_lt.2 h)]
  by_cases hc : triggerThreshold ≤ stepQuot s m ∧ noiseFloor < stepSta s m ∧
      s.inAlarm = false
  · rw [if_pos hc]
    show (some { magnitude := stepQuot s m, eventMillis := t } : Option SeismicEvent) =
      some e ↔ _
    constructor
    · intro he
      exact ⟨hc.1, hc.2.1, hc.2.2, (Option.some.inj he).symm⟩
    · intro ⟨_, _, _, he⟩
      rw [he]
  · rw [if_neg hc]
    show (none : Option SeismicEvent) = some e ↔ _
    refine iff_of_false (by simp) ?_
    intro ⟨h1, h2, h3, _⟩
    exact hc ⟨h1, h2, h3⟩

/-- Counterexample to C3 as stated: at this state and sample the
instantaneous signal is exactly zero — the high-pass output is gated below
the noise floor — yet the loop emits an event, because the source tests the
short-term average `sta > NOISE_FLOOR`, not the instantaneous signal. -/
theorem c3_instantaneous_signal_cex :
    (sensorTaskStep gatedSpikeState 10 0).2 =
      some { magnitude := 36/19, eventMillis := 0 } ∧
    stepSignal gatedSpikeState 10 = 0 ∧
    |hpf gatedSpikeState.filteredMag gatedSpikeState.prevRawMag 10| < noiseFloor := by
  norm_num [sensorTaskStep, stepQuot, stepSta, stepLta, stepSignal, hpf, gate, staNext,
    ltaNext, gatedSpikeState, alphaLta, alphaSta, triggerThreshold, noiseFloor,
    dropoutFloor, ltaFloor, cooldownMs, abs]

/-- Witness for the amended C3: the characterization applied at a concrete
emitting state. -/
theorem c3_witness :
    (sensorTaskStep emitState 12 7).2 = some { magnitude := 1488/55, eventMillis := 7 } := by
  refine (c3_trigger_uses_short_term_average emitState 12 7
    { magnitude := 1488/55, eventMillis := 7 } (by norm_num [dropoutFloor])).2
    ⟨?_, ?_, rfl, ?_⟩
  · norm_num [stepQuot, stepSta, stepLta, stepSignal, hpf, gate, staNext, ltaNext,
      emitState, alphaLta, alphaSta, triggerThreshold, noiseFloor, ltaFloor, abs]
  · norm_num [stepSta, stepSignal, hpf, gate, staNext, emitState, alphaSta, noiseFloor, abs]
  · norm_num [stepQuot, stepSta, stepLta, stepSignal, hpf, gate, staNext, ltaNext,
      emitState, alphaLta, alphaSta, noiseFloor, ltaFloor, abs]

set_option maxHeartbeats 2000000 in
/-- Claim C5: no event is emitted while the alarm flag is set; an emission
sets the flag and records the alarm start; the flag clears on the first
processed sample more than the 5 s dwell after the alarm start (5 s lies in
the claimed 2–5 s range); and the concrete single-rising-edge scenario emits
exactly one event. -/
theorem c5_single_event_per_edge :
    (∀ (s : DetectorState) (m : ℚ) (t : ℕ), s.inAlarm = true →
       (sensorTaskStep s m t).2 = none) ∧
    (∀ (s : DetectorState) (m : ℚ) (t : ℕ) (e : SeismicEvent),
       (sensorTaskStep s m t).2 = some e →
       (sensorTaskStep s m t).1.inAlarm = true ∧
       (sensorTaskStep s m t).1.alarmStart = t) ∧
    (∀ (s : DetectorState) (m : ℚ) (t : ℕ), s.inAlarm = true → dropoutFloor ≤ m →
       cooldownMs < t - s.alarmStart → (sensorTaskStep s m t).1.inAlarm = false) ∧
    (sensorTaskRun restState edgeSamples).2.length = 1 := by
  refine ⟨?_, ?_, ?_, ?_⟩
  · intro s m t hA
    unfold sensorTaskStep
    split_ifs with h1 h2 h3
    · rfl
    · rw [hA] at h2
      exact absurd h2.2.2 (by simp)
    · rfl
    · rfl
  · intro s m t e he
    unfold sensorTaskStep at he ⊢
    by_cases h1 : m < dropoutFloor
    · rw [if_pos h1] at he
      exact absurd he (by simp)
    · rw [if_neg h1] at he ⊢
      by_cases h2 : triggerThreshold ≤ stepQuot s m ∧ noiseFloor < stepSta s m ∧
          s.inAlarm = false
      · rw [if_pos h2]
        exact ⟨rfl, rfl⟩
      · rw [if_neg h2] at he
        exact absurd he (by simp)
  · intro s m t hA hm hcool
    unfold sensorTaskStep
    rw [if_neg (not_lt.2 hm)]
    split_ifs with h2 h3
    · rw [hA] at h2
      exact absurd h2.2.2 (by simp)
    · rfl
    · exact absurd ⟨hA, hcool⟩ h3
  · norm_num [sensorTaskRun, sensorTaskStep, stepQuot, stepSta, stepLta, stepSignal, hpf,
      gate, staNext, ltaNext, restState, edgeSamples, alphaLta, alphaSta, triggerThreshold,
      noiseFloor, dropoutFloor, ltaFloor, cooldownMs, abs]

/-- Witness for C5 at concrete states: an in-alarm step emits nothing, an
emitting step raises the flag and stores the trigger time, and an in-alarm
step past the dwell clears the flag. -/
theorem c5_witness :
    (sensorTaskStep alarmState 10 200).2 = none ∧
    ((sensorTaskStep emitState 12 7).1.inAlarm = true ∧
     (sensorTaskStep emitState 12 7).1.alarmStart = 7) ∧
    (sensorTaskStep alarmState 10 9000).1.inAlarm = false := by
  refine ⟨c5_single_event_per_edge.1 alarmState 10 200 rfl,
    c5_single_event_per_edge.2.1 emitState 12 7
      { magnitude := 1488/55, eventMillis := 7 } ?_,
    c5_single_event_per_edge.2.2.1 alarmState 10 9000 rfl (by norm_num [dropoutFloor])
      (by norm_num [cooldownMs, alarmState])⟩
  norm_num [sensorTaskStep, stepQuot, stepSta, stepLta, stepSignal, hpf, gate, staNext,
    ltaNext, emitState, alphaLta, alphaSta, triggerThreshold, noiseFloor, dropoutFloor,
    ltaFloor, cooldownMs, abs]

/-- Claim C9: every event ever placed on the event channel carries a
magnitude ratio of at least the trigger threshold 1.8, and consequently any
transmitted `value` field derived from such a ratio is at least 180. -/
theorem c9_event_magnitude_ge_threshold :
    (∀ (s : DetectorState) (samples : List (ℚ × ℕ)) (e : SeismicEvent),
       e ∈ (sensorTaskRun s samples).2 → triggerThreshold ≤ e.magnitude) ∧
    (∀ r : ℚ, triggerThreshold ≤ r → (180 : ℤ) ≤ cIntOfRat (r * 100)) := by
  have hstep : ∀ (s : DetectorState) (m : ℚ) (t : ℕ) (e : SeismicEvent),
      (sensorTaskStep s m t).2 = some e → triggerThreshold ≤ e.magnitude := by
    intro s m t e he
    unfold sensorTaskStep at he
    by_cases h1 : m < dropoutFloor
    · rw [if_pos h1] at he
      exact absurd he (by simp)
    · rw [if_neg h1] at he
      by_cases h2 : triggerThreshold ≤ stepQuot s m ∧ noiseFloor < stepSta s m ∧
          s.inAlarm = false
      · rw [if_pos h2] at he
        have he' : (some { magnitude := stepQuot s m, eventMillis := t } :
            Option SeismicEvent) = some e := he
        rw [← Option.some.inj he']
        exact h2.1
      · rw [if_neg h2] at he
        exact absurd he (by simp)
  refine ⟨?_, ?_⟩
  · intro s samples
    induction samples generalizing s with
    | nil =>
      intro e he
      simp [sensorTaskRun] at he
    | cons p rest ih =>
      intro e he
      obtain ⟨m, t⟩ := p
      rw [sensorTaskRun] at he
      rcases List.mem_append.1 he with hin | hin
      · cases hopt : (sensorTaskStep s m t).2 with
        | none =>
          rw [hopt] at hin
          cases hin
        | some e' =>
          rw [hopt] at hin
          rw [List.mem_singleton.1 hin]
          exact hstep s m t e' hopt
      · exact ih (sensorTaskStep s m t).1 e hin
  · intro r hr
    have h0 : (0:ℚ) ≤ r * 100 := by
      have : (9:ℚ)/5 ≤ r := by simpa [triggerThreshold] using hr
      nlinarith
    have h180 : (180:ℚ) ≤ r * 100 := by
      have : (9:ℚ)/5 ≤ r := by simpa [triggerThreshold] using hr
      nlinarith
    have hfloor : cIntOfRat (r * 100) = ⌊r * 100⌋ := by
      unfold cIntOfRat
      rw [Rat.floor_def]
      exact Int.tdiv_eq_ediv (Rat.num_nonneg.2 h0) (Int.ofNat_nonneg _)
    rw [hfloor]
    exact Int.le_floor.2 (by exact_mod_cast h180)

/-- Witness for C9 at a concrete run and ratio. -/
theorem c9_witness :
    triggerThreshold ≤ ({ magnitude := 1488/55, eventMillis := 7 } : SeismicEvent).magnitude ∧
    (180 : ℤ) ≤ cIntOfRat ((1488/55 : ℚ) * 100) := by
  constructor
  · refine c9_event_magnitude_ge_threshold.1 emitState [(12, 7)]
      { magnitude := 1488/55, eventMillis := 7 } ?_
    norm_num [sensorTaskRun, sensorTaskStep, stepQuot, stepSta, stepLta, stepSignal, hpf,
      gate, staNext, ltaNext, emitState, alphaLta, alphaSta, triggerThreshold, noiseFloor,
      dropoutFloor, ltaFloor, cooldownMs, abs]
  · exact c9_event_magnitude_ge_threshold.2 (1488/55) (by norm_num [triggerThreshold])

/-- Claim C4: for an event detected at monotonic millisecond count `t0` and
dispatched at count `t1` (less than one 32-bit wrap later) with wall clock
`w`, the reconstructed timestamp equals `w` minus the age converted to whole
seconds — it depends only on the difference `t1 - t0`, not on how long
dispatch was delayed. -/
theorem c4_timestamp_reconstruction :
    ∀ (w : ℤ) (t1 t0 : ℕ), t0 ≤ t1 → t1 - t0 < u32Mod →
      reconstructTime w t1 t0 = w - ((t1 - t0) / 1000 : ℕ) := by
  intro w t1 t0 h1 h2
  have h2' : t1 - t0 < 4294967296 := by simpa [u32Mod] using h2
  have hms : millisSub t1 t0 = t1 - t0 := by
    simp only [millisSub, u32Mod]
    omega
  unfold reconstructTime
  rw [hms]

/-- Witness for C4 at concrete clock readings. -/
theorem c4_witness :
    reconstructTime 1700000000 250050 10050 =
      1700000000 - ((250050 - 10050) / 1000 : ℕ) :=
  c4_timestamp_reconstruction 1700000000 250050 10050 (by norm_num)
    (by norm_num [u32Mod])

/-- Claim C10: the reconstructed `device_timestamp` never exceeds the wall
clock read at dispatch, for all clock readings (the unsigned 32-bit age is
nonnegative and is subtracted). -/
theorem c10_timestamp_not_in_future :
    ∀ (w : ℤ) (t1 t0 : ℕ), reconstructTime w t1 t0 ≤ w := by
  intro w t1 t0
  unfold reconstructTime
  exact sub_le_self w (by positivity)

/-- Claim C8: the dispatched `value` is the magnitude ratio scaled by 100 and
truncated toward zero; the string passed to the signer is exactly
`value ++ ":" ++ timestamp`; the payload's `device_timestamp` is the
reconstructed time; the signature field is the signer's output on that exact
string; the serialized document carries exactly the four fields in order; and
(for a nonnegative ratio) the integer really is the truncation of the scaled
ratio. -/
theorem c8_payload_format :
    ∀ (evt : SeismicEvent) (u : ℤ) (ms : ℕ) (signer : String → String),
      (networkHandleEvent evt u ms signer).2.value = cIntOfRat (evt.magnitude * 100) ∧
      (networkHandleEvent evt u ms signer).1 =
        toString (cIntOfRat (evt.magnitude * 100)) ++ ":" ++
          toString (reconstructTime u ms evt.eventMillis) ∧
      (networkHandleEvent evt u ms signer).2.deviceTimestamp =
        reconstructTime u ms evt.eventMillis ∧
      (networkHandleEvent evt u ms signer).2.misuratorId = sensorIdConf ∧
      (networkHandleEvent evt u ms signer).2.signatureHex =
        signer (networkHandleEvent evt u ms signer).1 ∧
      (serializeFields (networkHandleEvent evt u ms signer).2).map Prod.fst =
        ["value", "misurator_id", "device_timestamp", "signature_hex"] ∧
      (0 ≤ evt.magnitude →
        ((cIntOfRat (evt.magnitude * 100) : ℤ) : ℚ) ≤ evt.magnitude * 100 ∧
        evt.magnitude * 100 < ((cIntOfRat (evt.magnitude * 100) : ℤ) : ℚ) + 1) := by
  intro evt u ms signer
  refine ⟨rfl, rfl, rfl, rfl, rfl, rfl, ?_⟩
  intro h0
  have hfloor : cIntOfRat (evt.magnitude * 100) = ⌊evt.magnitude * 100⌋ := by
    unfold cIntOfRat
    rw [Rat.floor_def]
    exact Int.tdiv_eq_ediv (Rat.num_nonneg.2 (mul_nonneg h0 (by norm_num)))
      (Int.ofNat_nonneg _)
  rw [hfloor]
  exact ⟨Int.floor_le _, Int.lt_floor_add_one _⟩

/-- Witness for C8: the truncation bounds discharged at a concrete event. -/
theorem c8_witness :
    ((cIntOfRat ((2:ℚ) * 100) : ℤ) : ℚ) ≤ (2:ℚ) * 100 ∧
    (2:ℚ) * 100 < ((cIntOfRat ((2:ℚ) * 100) : ℤ) : ℚ) + 1 :=
  (c8_payload_format { magnitude := 2, eventMillis := 1000 } 1700000000 61000 id).2.2.2.2.2.2
    (by norm_num)

/-- Claim C1 (code bug): on a boot whose stored key fails to parse, the
source discards the error code of `mbedtls_pk_parse_key`, still starts both
tasks, and the dispatcher still produces a signed payload for a dequeued
event — the firmware neither halts nor loops on a recovery path, contrary to
the claim that no signed payload is ever produced after a key-parse error. -/
theorem c1_key_parse_error_still_signs :
    initCryptoBoot (some [48, 129, 135]) false = .tasksStarted false ∧
    bootDispatch (initCryptoBoot (some [48, 129, 135]) false)
      { magnitude := 2, eventMillis := 1000 } 1700000000 61000
      (fun _ => signMessage false []) ≠ none :=
  ⟨rfl, by simp [initCryptoBoot, bootDispatch]⟩

/-- Counterexample to C2 as stated: a single queued event dequeued during a
connectivity outage is removed from the queue and never dispatched, even
though connectivity returns on the very next iterations — the event is lost,
not deferred. -/
theorem c2_disconnected_dequeue_drops_event :
    netStep false [{ magnitude := 2, eventMillis := 0 }] = ([], none) ∧
    netRun [false, true, true] [{ magnitude := 2, eventMillis := 0 }] = [] := by
  exact ⟨rfl, rfl⟩

/-- Claim C2, amended: when the dispatcher dequeues an event while
connectivity is down it triggers reconnection and a fixed backoff, but the
dequeued event itself is discarded (neither dispatched nor re-queued) and
the loop proceeds with the remaining queue; an event dequeued while
connected is dispatched. -/
theorem c2_dispatch_drop_behavior :
    (∀ (cs : List Bool) (e : SeismicEvent) (rest : List SeismicEvent),
       netRun (false :: cs) (e :: rest) = netRun cs rest) ∧
    (∀ (cs : List Bool) (e : SeismicEvent) (rest : List SeismicEvent),
       netRun (true :: cs) (e :: rest) = e :: netRun cs rest) := by
  constructor <;> intro cs e rest <;> simp [netRun, netStep]

end QuakeGuard
